import Mathlib

/-!
Verification development for the STL print-cost calculator (`src/script.js`,
the multi-file variant whose lines the claims cite).  The pricing core is a
pure pipeline over JavaScript numbers; we embed it shallowly over `ℚ`.
JavaScript's NaN contamination (a table lookup that yields `undefined` and
then poisons every arithmetic result) is modelled by `Option ℚ`, with `none`
standing for "no numeric value" — the source never throws on an unknown
quality tier, it silently produces NaN.
-/

namespace PrintCalc

/-- Material row of the `MATERIALS` table (script.js lines 26–31). -/
structure Material where
  rate : ℚ
  baseFee : ℚ
  density_g_cm3 : ℚ
deriving DecidableEq

/-- The four keys of the `MATERIALS` table; the settings UI offers exactly
these, so a model's `material` field always holds one of them. -/
inductive MaterialName
  | PLA
  | PETG
  | ABS
  | PETG_CF
deriving DecidableEq

/-- The `MATERIALS` table (script.js lines 26–31). -/
def MATERIALS : MaterialName → Material
  | .PLA => { rate := 2, baseFee := 150, density_g_cm3 := 124 / 100 }
  | .PETG => { rate := 24 / 10, baseFee := 160, density_g_cm3 := 127 / 100 }
  | .ABS => { rate := 3, baseFee := 180, density_g_cm3 := 104 / 100 }
  | .PETG_CF => { rate := 28 / 10, baseFee := 175, density_g_cm3 := 130 / 100 }

/-- The `QUALITY_SPEED` table (script.js line 33): `{draft: 1134, standard:
486, fine: 194}`.  A key outside the table yields `undefined` in JS, here
`none`. -/
def QUALITY_SPEED (q : String) : Option ℚ :=
  if q = "draft" then some 1134
  else if q = "standard" then some 486
  else if q = "fine" then some 194
  else none

/-- script.js line 36. -/
def SHELL_BASE : ℚ := 70 / 100

/-- script.js line 37. -/
def INFILL_PORTION : ℚ := 1 - SHELL_BASE

/-- script.js line 38. -/
def CALIBRATION_MULT : ℚ := 202 / 100

/-- script.js line 39. -/
def WASTE_GRAMS_PER_PART : ℚ := 2

/-- script.js line 40. -/
def SUPPORT_MASS_MULT : ℚ := 125 / 100

/-- script.js line 530: `Math.max(min, Math.min(max, v))`. -/
def clamp (v lo hi : ℚ) : ℚ := max lo (min hi v)

/-- script.js line 43: `0.85 + (clamp(p, 0, 100)/100) * 0.60`. -/
def INFILL_TIME_MULT (p : ℚ) : ℚ := 85 / 100 + clamp p 0 100 / 100 * (60 / 100)

/-- script.js line 44: `yn === 'yes' ? 1.15 : 1.00`. -/
def SUPPORT_TIME_MULT (yn : String) : ℚ := if yn = "yes" then 115 / 100 else 1

/-- script.js line 47: `6 + 14/60` (6 minutes 14 seconds). -/
def PREP_TIME_PER_JOB_MIN : ℚ := 6 + 14 / 60

/-- script.js line 48. -/
def PREP_IS_PER_PART : Bool := false

/-- script.js line 51. -/
def SMALL_FEE_THRESHOLD : ℚ := 250

/-- script.js line 52. -/
def SMALL_FEE_TAPER : ℚ := 400

/-- script.js line 53. -/
def PRINT_RATE_PER_HOUR : ℚ := 10

/-- One loaded model's pricing-relevant state (script.js line 125 comment,
fields set at lines 190–202 and mutated by the row's controls).  `quality`
stays a raw string so that the lookup at line 409 can miss; `supports` is
the literal `'yes'`/`'no'` string the select control stores. -/
structure Model where
  volume_mm3 : ℚ
  qty : ℕ
  material : MaterialName
  quality : String
  infill : ℚ
  supports : String

/-- The grams formula of `estimateForModel` (script.js lines 402–405), with
the material density passed as a value:
`(v/1000)*density * (SHELL_BASE + INFILL_PORTION*(infill/100)) *
 (supports? SUPPORT_MASS_MULT : 1) * CALIBRATION_MULT + WASTE_GRAMS_PER_PART`. -/
def gramsPerPartDef (volume density infill : ℚ) (supports : String) : ℚ :=
  volume / 1000 * density * (SHELL_BASE + INFILL_PORTION * (infill / 100)) *
      (if supports = "yes" then SUPPORT_MASS_MULT else 1) * CALIBRATION_MULT +
    WASTE_GRAMS_PER_PART

/-- The per-part minutes of `estimateForModel` (script.js lines 409–411):
`(volume / QUALITY_SPEED[quality]) * INFILL_TIME_MULT(infill) *
SUPPORT_TIME_MULT(supports)`.  When the tier is not a table key, the JS
division by `undefined` produces NaN, modelled as `none`. -/
def timeMinPerPartDef (volume : ℚ) (quality : String) (infill : ℚ)
    (supports : String) : Option ℚ :=
  (QUALITY_SPEED quality).map fun baseSpeed =>
    volume / baseSpeed * (INFILL_TIME_MULT infill * SUPPORT_TIME_MULT supports)

/-- The record returned by `estimateForModel` (script.js lines 419–425).
Fields that NaN can reach when the quality tier is unknown are `Option ℚ`. -/
structure Estimate where
  gramsPerPart : ℚ
  gramsTotal : ℚ
  minutesTotal : Option ℚ
  materialCost : ℚ
  printCost : Option ℚ
  sub : Option ℚ
  matBaseFee : ℚ

/-- `estimateForModel` (script.js lines 398–426). -/
def estimateForModel (m : Model) : Estimate :=
  let mat := MATERIALS m.material
  let gramsPerPart := gramsPerPartDef m.volume_mm3 mat.density_g_cm3 m.infill m.supports
  let gramsTotal := gramsPerPart * (m.qty : ℚ)
  let minutesTotal := (timeMinPerPartDef m.volume_mm3 m.quality m.infill m.supports).map
    fun t => t * (m.qty : ℚ)
  let materialCost := gramsTotal * mat.rate
  let printCost := minutesTotal.map fun mins => mins / 60 * PRINT_RATE_PER_HOUR
  { gramsPerPart := gramsPerPart
    gramsTotal := gramsTotal
    minutesTotal := minutesTotal
    materialCost := materialCost
    printCost := printCost
    sub := printCost.map fun pc => materialCost + pc
    matBaseFee := mat.baseFee }

/-- Addition on JS numbers where `none` models NaN: NaN poisons sums. -/
def optAdd : Option ℚ → Option ℚ → Option ℚ
  | some a, some b => some (a + b)
  | _, _ => none

/-- `totalParts` (script.js line 470): `models.reduce((s,m)=>s+m.qty,0)`. -/
def totalParts (ms : List Model) : ℕ := ms.foldl (fun s m => s + m.qty) 0

/-- `grandMinutes` of `recalc` (script.js lines 440, 448, 469–471): the sum
of each item's `minutesTotal` plus the prep overhead, which is multiplied by
the part count only when `PREP_IS_PER_PART` is set. -/
def recalcGrandMinutes (ms : List Model) : Option ℚ :=
  optAdd (ms.foldl (fun acc m => optAdd acc (estimateForModel m).minutesTotal) (some 0))
    (some (PREP_TIME_PER_JOB_MIN * (if PREP_IS_PER_PART then (totalParts ms : ℚ) else 1)))

/-- `grandSubtotal` of `recalc` (script.js lines 441, 449, 476). -/
def recalcGrandSubtotal (ms : List Model) : Option ℚ :=
  ms.foldl (fun acc m => optAdd acc (estimateForModel m).sub) (some 0)

/-- `maxBaseFee` of `recalc` (script.js lines 442, 450):
`maxBaseFee = Math.max(maxBaseFee, est.matBaseFee)` starting from 0. -/
def recalcMaxBaseFee (ms : List Model) : ℚ :=
  ms.foldl (fun acc m => max acc (estimateForModel m).matBaseFee) 0

/-- The small-order fee step of `recalc` (script.js lines 477–483), as a
function of the fee basis `b` and the subtotal. -/
def smallOrderFeeFormula (b subtotal : ℚ) : ℚ :=
  if subtotal ≤ SMALL_FEE_THRESHOLD then b
  else max (b - (subtotal - SMALL_FEE_THRESHOLD) / SMALL_FEE_TAPER * b) 0

/-- `smallOrderFee` of `recalc` applied to the batch (script.js lines
475–483); NaN subtotal propagates (in JS `Math.max(NaN, 0)` is NaN). -/
def recalcSmallOrderFee (ms : List Model) : Option ℚ :=
  (recalcGrandSubtotal ms).map (smallOrderFeeFormula (recalcMaxBaseFee ms))

/-- script.js line 485: `Math.ceil(subtotal + smallOrderFee)`. -/
def finalPriceFormula (subtotal fee : ℚ) : ℤ := ⌈subtotal + fee⌉

/-- `finalPrice` of `recalc` for the whole batch (script.js line 485). -/
def recalcFinalPrice (ms : List Model) : Option ℤ :=
  match recalcGrandSubtotal ms, recalcSmallOrderFee ms with
  | some s, some f => some (finalPriceFormula s f)
  | _, _ => none

/-- `computeVolume`'s per-triangle signed term (script.js line 393). -/
def triTerm (a1 a2 a3 b1 b2 b3 c1 c2 c3 : ℚ) : ℚ :=
  a1 * b2 * c3 + b1 * c2 * a3 + c1 * a2 * b3 -
    a1 * c2 * b3 - b1 * a2 * c3 - c1 * b2 * a3

/-- The accumulation loop of `computeVolume` (script.js lines 388–394): walk
the flat vertex array nine scalars (one triangle) at a time.  A trailing
fragment shorter than nine scalars contributes nothing, matching the loop
guard `i < a.length` with step 9 only when the length is a multiple of 9
(the claims are stated under that hypothesis). -/
def sumTerms : List ℚ → ℚ
  | a1 :: a2 :: a3 :: b1 :: b2 :: b3 :: c1 :: c2 :: c3 :: rest =>
      triTerm a1 a2 a3 b1 b2 b3 c1 c2 c3 + sumTerms rest
  | _ => 0

/-- `computeVolume` (script.js lines 386–396): `Math.abs(v)/6`. -/
def computeVolume (l : List ℚ) : ℚ := |sumTerms l| / 6

/-- Exchange the second and third vertex of every triangle of a flat vertex
array (the winding reversal of claim C6); fragments shorter than a triangle
are left as they are. -/
def reverseWinding : List ℚ → List ℚ
  | a1 :: a2 :: a3 :: b1 :: b2 :: b3 :: c1 :: c2 :: c3 :: rest =>
      a1 :: a2 :: a3 :: c1 :: c2 :: c3 :: b1 :: b2 :: b3 :: reverseWinding rest
  | l => l

/-- Concrete line item: a 1000 mm³ model priced as PLA, standard quality,
15 % infill, no supports, quantity 1 (the defaults of script.js lines
196–200). -/
def mPLA1000 : Model :=
  { volume_mm3 := 1000, qty := 1, material := .PLA, quality := "standard",
    infill := 15, supports := "no" }

/-- Concrete line item: as `mPLA1000` but priced as ABS. -/
def mABS1000 : Model :=
  { volume_mm3 := 1000, qty := 1, material := .ABS, quality := "standard",
    infill := 15, supports := "no" }

/-- Concrete line item: a zero-volume (degenerate) PLA model. -/
def mZeroPLA : Model :=
  { volume_mm3 := 0, qty := 1, material := .PLA, quality := "standard",
    infill := 15, supports := "no" }

/-- Concrete line item whose quality string is not a key of
`QUALITY_SPEED`. -/
def mUltraPLA : Model :=
  { volume_mm3 := 1000, qty := 1, material := .PLA, quality := "ultra",
    infill := 15, supports := "no" }

/-! ### Helper lemmas (shared) -/

/-- The clamped infill time multiplier stays within `[0.85, 1.45]`. -/
lemma infill_time_mult_bounds (p : ℚ) :
    0.85 ≤ INFILL_TIME_MULT p ∧ INFILL_TIME_MULT p ≤ 1.45 := by
  have h1 : 0 ≤ clamp p 0 100 := le_max_left _ _
  have h2 : clamp p 0 100 ≤ 100 := max_le (by norm_num) (min_le_left _ _)
  unfold INFILL_TIME_MULT
  constructor <;> nlinarith

/-- The support time multiplier is strictly positive. -/
lemma support_time_mult_pos (s : String) : 0 < SUPPORT_TIME_MULT s := by
  unfold SUPPORT_TIME_MULT
  split_ifs <;> norm_num

/-! ### C10 — infill time multiplier bounds -/

/-- C10: for every rational infill input `p`, including values below 0 or
above 100, `INFILL_TIME_MULT p = 0.85 + (clamp(p,0,100)/100)·0.60` lies in
`[0.85, 1.45]`, because the input is clamped to `[0, 100]` before use. -/
theorem infill_time_mult_range (p : ℚ) :
    0.85 ≤ INFILL_TIME_MULT p ∧ INFILL_TIME_MULT p ≤ 1.45 :=
  infill_time_mult_bounds p

/-! ### C2 — ceiling guarantee for the final price -/

/-- C2: for every subtotal and fee, `finalPriceFormula` (the
`Math.ceil(subtotal + fee)` of script.js line 485) is an integer (its
codomain is `ℤ`) with `subtotal + fee ≤ finalPrice < subtotal + fee + 1`:
rounding is always upward, never to nearest and never down. -/
theorem finalPrice_ceiling_bounds (s f : ℚ) :
    s + f ≤ (finalPriceFormula s f : ℚ) ∧ (finalPriceFormula s f : ℚ) < s + f + 1 := by
  unfold finalPriceFormula
  exact ⟨Int.le_ceil _, Int.ceil_lt_add_one _⟩

/-! ### C1 — small-order fee bounds and monotonicity -/

/-- C1: for every base fee `b ≥ 0`, the small-order fee of script.js lines
477–483 satisfies `0 ≤ fee ≤ b` for every subtotal `≥ 0`, equals `b`
exactly whenever the subtotal is at most `SMALL_FEE_THRESHOLD` (in
particular at subtotal 0), and is monotone non-increasing in the
subtotal. -/
theorem smallOrderFee_bounds_monotone (b : ℚ) (hb : 0 ≤ b) :
    (∀ s, 0 ≤ s → 0 ≤ smallOrderFeeFormula b s ∧ smallOrderFeeFormula b s ≤ b) ∧
    (∀ s, s ≤ SMALL_FEE_THRESHOLD → smallOrderFeeFormula b s = b) ∧
    smallOrderFeeFormula b 0 = b ∧
    (∀ s t, s ≤ t → smallOrderFeeFormula b t ≤ smallOrderFeeFormula b s) := by
  have hred : ∀ s : ℚ, SMALL_FEE_THRESHOLD < s →
      0 ≤ (s - SMALL_FEE_THRESHOLD) / SMALL_FEE_TAPER * b := by
    intro s hs
    refine mul_nonneg (div_nonneg ?_ (by norm_num [SMALL_FEE_TAPER])) hb
    linarith
  have hge : ∀ s, 0 ≤ smallOrderFeeFormula b s := by
    intro s
    unfold smallOrderFeeFormula
    split_ifs with h
    · exact hb
    · exact le_max_right _ _
  have hle : ∀ s, smallOrderFeeFormula b s ≤ b := by
    intro s
    unfold smallOrderFeeFormula
    split_ifs with h
    · exact le_rfl
    · push_neg at h
      exact max_le (by have := hred s h; linarith) hb
  refine ⟨fun s _ => ⟨hge s, hle s⟩, ?_, ?_, ?_⟩
  · intro s hs
    unfold smallOrderFeeFormula
    rw [if_pos hs]
  · unfold smallOrderFeeFormula
    rw [if_pos (by norm_num [SMALL_FEE_THRESHOLD])]
  · intro s t hst
    unfold smallOrderFeeFormula
    split_ifs with h1 h2 h2
    · exact le_rfl
    · exact absurd (le_trans hst h1) h2
    · push_neg at h1
      exact max_le (by have := hred t h1; linarith) hb
    · push_neg at h1 h2
      refine max_le_max (sub_le_sub_left ?_ b) le_rfl
      refine mul_le_mul_of_nonneg_right ?_ hb
      refine (div_le_div_iff_of_pos_right (by norm_num [SMALL_FEE_TAPER])).mpr ?_
      linarith

/-- Witness for C1 at `b = 150`, subtotals 0, 200 and 300. -/
theorem smallOrderFee_bounds_monotone_witness :
    (0 ≤ smallOrderFeeFormula 150 300 ∧ smallOrderFeeFormula 150 300 ≤ 150) ∧
    smallOrderFeeFormula 150 200 = 150 ∧
    smallOrderFeeFormula 150 0 = 150 ∧
    smallOrderFeeFormula 150 300 ≤ smallOrderFeeFormula 150 200 :=
  ⟨(smallOrderFee_bounds_monotone 150 (by norm_num)).1 300 (by norm_num),
   (smallOrderFee_bounds_monotone 150 (by norm_num)).2.1 200
     (by norm_num [SMALL_FEE_THRESHOLD]),
   (smallOrderFee_bounds_monotone 150 (by norm_num)).2.2.1,
   (smallOrderFee_bounds_monotone 150 (by norm_num)).2.2.2 200 300 (by norm_num)⟩

/-! ### C9 — waste term gives a 2-gram lower bound on mass -/

/-- C9: for non-negative volume, non-negative density and infill in
`[0, 100]`, the per-part mass estimate is at least
`WASTE_GRAMS_PER_PART = 2.0`: the fixed waste term is added after a
non-negative product. -/
theorem gramsPerPart_waste_lower_bound (v d i : ℚ) (s : String)
    (hv : 0 ≤ v) (hd : 0 ≤ d) (hi : 0 ≤ i) (_hi100 : i ≤ 100) :
    WASTE_GRAMS_PER_PART ≤ gramsPerPartDef v d i s := by
  unfold gramsPerPartDef
  have hq : 0 ≤ i / 100 := div_nonneg hi (by norm_num)
  have hfill : 0 ≤ SHELL_BASE + INFILL_PORTION * (i / 100) := by
    norm_num [SHELL_BASE, INFILL_PORTION]
    nlinarith
  have hsup : 0 ≤ (if s = "yes" then SUPPORT_MASS_MULT else (1 : ℚ)) := by
    split_ifs <;> norm_num [SUPPORT_MASS_MULT]
  have hprod : 0 ≤ v / 1000 * d * (SHELL_BASE + INFILL_PORTION * (i / 100)) *
      (if s = "yes" then SUPPORT_MASS_MULT else (1 : ℚ)) * CALIBRATION_MULT :=
    mul_nonneg (mul_nonneg (mul_nonneg (mul_nonneg
      (div_nonneg hv (by norm_num)) hd) hfill) hsup) (by norm_num [CALIBRATION_MULT])
  linarith

/-- Witness for C9 at volume 1000 mm³, PLA density 1.24, 15 % infill, no
supports. -/
theorem gramsPerPart_waste_lower_bound_witness :
    WASTE_GRAMS_PER_PART ≤ gramsPerPartDef 1000 (124 / 100) 15 "no" :=
  gramsPerPart_waste_lower_bound 1000 (124 / 100) 15 "no" (by norm_num)
    (by norm_num) (by norm_num) (by norm_num)

/-- The shell+infill fill factor is strictly positive for non-negative
infill. -/
lemma fill_factor_pos (i : ℚ) (hi : 0 ≤ i) :
    0 < SHELL_BASE + INFILL_PORTION * (i / 100) := by
  have hq : 0 ≤ i / 100 := div_nonneg hi (by norm_num)
  norm_num [SHELL_BASE, INFILL_PORTION]
  nlinarith

/-- The support mass multiplier branch is strictly positive. -/
lemma support_mass_branch_pos (s : String) :
    0 < (if s = "yes" then SUPPORT_MASS_MULT else (1 : ℚ)) := by
  split_ifs <;> norm_num [SUPPORT_MASS_MULT]

/-! ### C3 — mass-estimate monotonicity (corrected: strictness in density
and infill fails at zero volume) -/

/-- C3 counterexample: at volume 0 (a valid degenerate mesh), the mass
estimate is constant in density (ABS 1.04 versus PLA 1.24 give the same
grams) and constant in infill (15 % versus 50 % give the same grams), so
`gramsPerPart` does not strictly increase with material density or with
infill percent for every model. -/
theorem gramsPerPart_strictness_counterexample :
    (MATERIALS .ABS).density_g_cm3 < (MATERIALS .PLA).density_g_cm3 ∧
    gramsPerPartDef 0 (MATERIALS .ABS).density_g_cm3 15 "no" =
      gramsPerPartDef 0 (MATERIALS .PLA).density_g_cm3 15 "no" ∧
    (15 : ℚ) < 50 ∧
    gramsPerPartDef 0 (MATERIALS .PLA).density_g_cm3 15 "no" =
      gramsPerPartDef 0 (MATERIALS .PLA).density_g_cm3 50 "no" := by
  refine ⟨?_, ?_, ?_, ?_⟩ <;> norm_num [MATERIALS, gramsPerPartDef]

/-- C3 amended: the mass estimate strictly increases with volume (for
positive density and non-negative infill); for strictly positive volume it
strictly increases with density (non-negative infill) and with infill
percent (positive density); it is monotone non-decreasing when supports
are enabled; and it is never negative. -/
theorem gramsPerPart_monotonicity :
    (∀ v1 v2 d i s, 0 < d → 0 ≤ i → v1 < v2 →
        gramsPerPartDef v1 d i s < gramsPerPartDef v2 d i s) ∧
    (∀ v d1 d2 i s, 0 < v → 0 ≤ i → d1 < d2 →
        gramsPerPartDef v d1 i s < gramsPerPartDef v d2 i s) ∧
    (∀ v d i1 i2 s, 0 < v → 0 < d → i1 < i2 →
        gramsPerPartDef v d i1 s < gramsPerPartDef v d i2 s) ∧
    (∀ v d i, 0 ≤ v → 0 ≤ d → 0 ≤ i →
        gramsPerPartDef v d i "no" ≤ gramsPerPartDef v d i "yes") ∧
    (∀ v d i s, 0 ≤ v → 0 ≤ d → 0 ≤ i → 0 ≤ gramsPerPartDef v d i s) := by
  have hC : (0 : ℚ) < CALIBRATION_MULT := by norm_num [CALIBRATION_MULT]
  refine ⟨?_, ?_, ?_, ?_, ?_⟩
  · intro v1 v2 d i s hd hi hv
    have hF := fill_factor_pos i hi
    have hS := support_mass_branch_pos s
    have key : 0 < (v2 - v1) / 1000 * d * (SHELL_BASE + INFILL_PORTION * (i / 100)) *
        (if s = "yes" then SUPPORT_MASS_MULT else (1 : ℚ)) * CALIBRATION_MULT :=
      mul_pos (mul_pos (mul_pos (mul_pos
        (div_pos (by linarith) (by norm_num)) hd) hF) hS) hC
    unfold gramsPerPartDef
    nlinarith [key]
  · intro v d1 d2 i s hv hi hd
    have hF := fill_factor_pos i hi
    have hS := support_mass_branch_pos s
    have key : 0 < v / 1000 * (d2 - d1) * (SHELL_BASE + INFILL_PORTION * (i / 100)) *
        (if s = "yes" then SUPPORT_MASS_MULT else (1 : ℚ)) * CALIBRATION_MULT :=
      mul_pos (mul_pos (mul_pos (mul_pos
        (div_pos hv (by norm_num)) (by linarith)) hF) hS) hC
    unfold gramsPerPartDef
    nlinarith [key]
  · intro v d i1 i2 s hv hd hi
    have hS := support_mass_branch_pos s
    have hF : 0 < INFILL_PORTION * ((i2 - i1) / 100) := by
      norm_num [INFILL_PORTION, SHELL_BASE]
      nlinarith
    have key : 0 < v / 1000 * d * (INFILL_PORTION * ((i2 - i1) / 100)) *
        (if s = "yes" then SUPPORT_MASS_MULT else (1 : ℚ)) * CALIBRATION_MULT :=
      mul_pos (mul_pos (mul_pos (mul_pos
        (div_pos hv (by norm_num)) hd) hF) hS) hC
    unfold gramsPerPartDef
    nlinarith [key]
  · intro v d i hv hd hi
    have hF := le_of_lt (fill_factor_pos i hi)
    have key : 0 ≤ v / 1000 * d * (SHELL_BASE + INFILL_PORTION * (i / 100)) *
        (SUPPORT_MASS_MULT - 1) * CALIBRATION_MULT :=
      mul_nonneg (mul_nonneg (mul_nonneg (mul_nonneg
        (div_nonneg hv (by norm_num)) hd) hF)
        (by norm_num [SUPPORT_MASS_MULT])) (le_of_lt hC)
    unfold gramsPerPartDef
    rw [if_neg (by decide : ¬("no" = "yes")), if_pos rfl]
    nlinarith [key]
  · intro v d i s hv hd hi
    have hF := le_of_lt (fill_factor_pos i hi)
    have hS := le_of_lt (support_mass_branch_pos s)
    have key : 0 ≤ v / 1000 * d * (SHELL_BASE + INFILL_PORTION * (i / 100)) *
        (if s = "yes" then SUPPORT_MASS_MULT else (1 : ℚ)) * CALIBRATION_MULT :=
      mul_nonneg (mul_nonneg (mul_nonneg (mul_nonneg
        (div_nonneg hv (by norm_num)) hd) hF) hS) (le_of_lt hC)
    unfold gramsPerPartDef WASTE_GRAMS_PER_PART
    nlinarith [key]

/-- Witness for the amended C3 at concrete volumes, densities and infill
values. -/
theorem gramsPerPart_monotonicity_witness :
    gramsPerPartDef 1000 (124 / 100) 15 "no" < gramsPerPartDef 2000 (124 / 100) 15 "no" ∧
    gramsPerPartDef 1000 (104 / 100) 15 "no" < gramsPerPartDef 1000 (124 / 100) 15 "no" ∧
    gramsPerPartDef 1000 (124 / 100) 15 "no" < gramsPerPartDef 1000 (124 / 100) 50 "no" ∧
    gramsPerPartDef 1000 (124 / 100) 15 "no" ≤ gramsPerPartDef 1000 (124 / 100) 15 "yes" ∧
    0 ≤ gramsPerPartDef 1000 (124 / 100) 15 "no" :=
  ⟨gramsPerPart_monotonicity.1 1000 2000 (124 / 100) 15 "no" (by norm_num)
      (by norm_num) (by norm_num),
   gramsPerPart_monotonicity.2.1 1000 (104 / 100) (124 / 100) 15 "no" (by norm_num)
      (by norm_num) (by norm_num),
   gramsPerPart_monotonicity.2.2.1 1000 (124 / 100) 15 50 "no" (by norm_num)
      (by norm_num) (by norm_num),
   gramsPerPart_monotonicity.2.2.2.1 1000 (124 / 100) 15 (by norm_num)
      (by norm_num) (by norm_num),
   gramsPerPart_monotonicity.2.2.2.2 1000 (124 / 100) 15 "no" (by norm_num)
      (by norm_num) (by norm_num)⟩

/-! ### C8 — zero-volume meshes price as pure waste, zero minutes -/

/-- C8: a zero-volume model yields `gramsPerPart` exactly equal to the
fixed waste term and zero estimated minutes, raising no error (both the
per-part minutes and the item's `minutesTotal` are numeric, `some 0`). -/
theorem zero_volume_mass_time (m : Model) (h0 : m.volume_mm3 = 0)
    (hq : (QUALITY_SPEED m.quality).isSome) :
    (estimateForModel m).gramsPerPart = WASTE_GRAMS_PER_PART ∧
    timeMinPerPartDef m.volume_mm3 m.quality m.infill m.supports = some 0 ∧
    (estimateForModel m).minutesTotal = some 0 := by
  obtain ⟨sp, hsp⟩ := Option.isSome_iff_exists.mp hq
  have htime : timeMinPerPartDef m.volume_mm3 m.quality m.infill m.supports = some 0 := by
    unfold timeMinPerPartDef
    rw [hsp, h0]
    simp
  refine ⟨?_, htime, ?_⟩
  · have hg : (estimateForModel m).gramsPerPart =
        gramsPerPartDef m.volume_mm3 (MATERIALS m.material).density_g_cm3
          m.infill m.supports := rfl
    rw [hg, h0]
    unfold gramsPerPartDef
    simp
  · have hMT : (estimateForModel m).minutesTotal =
        (timeMinPerPartDef m.volume_mm3 m.quality m.infill m.supports).map
          (fun t => t * (m.qty : ℚ)) := rfl
    rw [hMT, htime]
    simp

/-- Witness for C8 on a degenerate (zero-volume) PLA model at standard
quality. -/
theorem zero_volume_mass_time_witness :
    (estimateForModel mZeroPLA).gramsPerPart = WASTE_GRAMS_PER_PART ∧
    timeMinPerPartDef mZeroPLA.volume_mm3 mZeroPLA.quality mZeroPLA.infill
      mZeroPLA.supports = some 0 ∧
    (estimateForModel mZeroPLA).minutesTotal = some 0 :=
  zero_volume_mass_time mZeroPLA rfl (by decide)

/-! ### C7 — unknown quality tier (corrected: the code does not raise) -/

/-- C7 counterexample: with the unknown tier `"ultra"` the code does not
fail fast with no partial result — `estimateForModel` still returns fully
computed mass figures (`gramsPerPart > 0`) while the time figures are
non-numeric (`none`, the NaN of the JS source); no error is raised. -/
theorem invalid_tier_counterexample :
    QUALITY_SPEED "ultra" = none ∧
    (estimateForModel mUltraPLA).minutesTotal = none ∧
    0 < (estimateForModel mUltraPLA).gramsPerPart := by
  refine ⟨rfl, rfl, ?_⟩
  have hg : (estimateForModel mUltraPLA).gramsPerPart =
      gramsPerPartDef 1000 (124 / 100) 15 "no" := rfl
  rw [hg]
  unfold gramsPerPartDef
  rw [if_neg (by decide : ¬("no" = "yes"))]
  norm_num [SHELL_BASE, INFILL_PORTION, CALIBRATION_MULT, WASTE_GRAMS_PER_PART]

/-- C7 amended: a tier outside draft/standard/fine has no entry in
`QUALITY_SPEED`, and then the model's `minutesTotal` is non-numeric
(`none`) rather than an error being raised, while for every tier in the
table and strictly positive volume the per-part minutes are numeric and
strictly positive. -/
theorem invalid_tier_no_minutes_valid_tier_positive :
    (∀ q : String, q ≠ "draft" → q ≠ "standard" → q ≠ "fine" →
        QUALITY_SPEED q = none) ∧
    (∀ m : Model, QUALITY_SPEED m.quality = none →
        (estimateForModel m).minutesTotal = none) ∧
    (∀ v q i s, (QUALITY_SPEED q).isSome → 0 < v →
        ∃ t, timeMinPerPartDef v q i s = some t ∧ 0 < t) := by
  refine ⟨?_, ?_, ?_⟩
  · intro q h1 h2 h3
    unfold QUALITY_SPEED
    rw [if_neg h1, if_neg h2, if_neg h3]
  · intro m hnone
    have hMT : (estimateForModel m).minutesTotal =
        (timeMinPerPartDef m.volume_mm3 m.quality m.infill m.supports).map
          (fun t => t * (m.qty : ℚ)) := rfl
    rw [hMT]
    unfold timeMinPerPartDef
    rw [hnone]
    rfl
  · intro v q i s hq hv
    have him : 0 < INFILL_TIME_MULT i :=
      lt_of_lt_of_le (by norm_num) (infill_time_mult_bounds i).1
    have hsm := support_time_mult_pos s
    unfold timeMinPerPartDef QUALITY_SPEED
    unfold QUALITY_SPEED at hq
    split_ifs at hq ⊢
    · exact ⟨_, rfl, mul_pos (div_pos hv (by norm_num)) (mul_pos him hsm)⟩
    · exact ⟨_, rfl, mul_pos (div_pos hv (by norm_num)) (mul_pos him hsm)⟩
    · exact ⟨_, rfl, mul_pos (div_pos hv (by norm_num)) (mul_pos him hsm)⟩
    · simp at hq

/-- Witness for the amended C7: `"ultra"` misses the table and poisons the
minutes of a concrete model, while standard quality at 1000 mm³ yields
strictly positive minutes. -/
theorem invalid_tier_no_minutes_valid_tier_positive_witness :
    QUALITY_SPEED "ultra" = none ∧
    (estimateForModel mUltraPLA).minutesTotal = none ∧
    ∃ t, timeMinPerPartDef 1000 "standard" 15 "no" = some t ∧ 0 < t :=
  ⟨invalid_tier_no_minutes_valid_tier_positive.1 "ultra" (by decide) (by decide)
      (by decide),
   invalid_tier_no_minutes_valid_tier_positive.2.1 mUltraPLA (by decide),
   invalid_tier_no_minutes_valid_tier_positive.2.2 1000 "standard" 15 "no"
      (by decide) (by norm_num)⟩

/-! ### C4 — the batch small-order fee basis is the maximum base fee -/

/-- The `matBaseFee` field returned by `estimateForModel` is the material
table's base fee. -/
lemma estimateForModel_matBaseFee (m : Model) :
    (estimateForModel m).matBaseFee = (MATERIALS m.material).baseFee := rfl

/-- The running `Math.max` accumulation never drops below its start. -/
lemma init_le_foldl_max :
    ∀ (ms : List Model) (a : ℚ),
      a ≤ ms.foldl (fun acc x => max acc (estimateForModel x).matBaseFee) a
  | [], _ => le_rfl
  | x :: xs, a =>
      le_trans (le_max_left _ _)
        (init_le_foldl_max xs (max a (estimateForModel x).matBaseFee))

/-- Every listed item's base fee is at most the running `Math.max`. -/
lemma mem_le_foldl_max :
    ∀ (ms : List Model) (a : ℚ) (m : Model), m ∈ ms →
      (estimateForModel m).matBaseFee ≤
        ms.foldl (fun acc x => max acc (estimateForModel x).matBaseFee) a
  | [], _, m, hm => absurd hm (List.not_mem_nil m)
  | x :: xs, a, m, hm => by
      rcases List.mem_cons.mp hm with h | h
      · subst h
        exact le_trans (le_max_right _ _)
          (init_le_foldl_max xs (max a (estimateForModel m).matBaseFee))
      · exact mem_le_foldl_max xs (max a (estimateForModel x).matBaseFee) m h

/-- The running `Math.max` is either the start value or some listed item's
base fee. -/
lemma foldl_max_attained :
    ∀ (ms : List Model) (a : ℚ),
      ms.foldl (fun acc x => max acc (estimateForModel x).matBaseFee) a = a ∨
        ∃ m ∈ ms,
          ms.foldl (fun acc x => max acc (estimateForModel x).matBaseFee) a =
            (estimateForModel m).matBaseFee
  | [], _ => Or.inl rfl
  | x :: xs, a => by
      simp only [List.foldl_cons]
      rcases foldl_max_attained xs (max a (estimateForModel x).matBaseFee) with
        h | ⟨m, hm, hEq⟩
      · rcases max_choice a (estimateForModel x).matBaseFee with h2 | h2
        · left
          rw [h, h2]
        · right
          exact ⟨x, List.mem_cons_self x xs, by rw [h, h2]⟩
      · exact Or.inr ⟨m, List.mem_cons_of_mem x hm, hEq⟩

/-- Every material of the table carries a strictly positive base fee. -/
lemma baseFee_pos (k : MaterialName) : 0 < (MATERIALS k).baseFee := by
  cases k <;> norm_num [MATERIALS]

/-- C4: the small-order fee basis of `recalc` dominates every used
material's base fee and is attained by one of them (so it is their maximum,
not their sum and not their average); concretely, PLA (base fee 150) plus
ABS (base fee 180) with a combined subtotal below the threshold yields an
aggregate small-order fee of exactly 180. -/
theorem batch_fee_basis_is_max_baseFee :
    (∀ ms : List Model, ∀ m ∈ ms,
        (MATERIALS m.material).baseFee ≤ recalcMaxBaseFee ms) ∧
    (∀ ms : List Model, ms ≠ [] →
        ∃ m ∈ ms, recalcMaxBaseFee ms = (MATERIALS m.material).baseFee) ∧
    recalcSmallOrderFee [mPLA1000, mABS1000] = some 180 := by
  refine ⟨?_, ?_, ?_⟩
  · intro ms m hm
    have h := mem_le_foldl_max ms 0 m hm
    rw [estimateForModel_matBaseFee] at h
    exact h
  · intro ms hne
    rcases foldl_max_attained ms 0 with h | ⟨m, hm, hEq⟩
    · cases ms with
      | nil => exact absurd rfl hne
      | cons x xs =>
          exfalso
          have hx := mem_le_foldl_max (x :: xs) 0 x (List.mem_cons_self x xs)
          rw [estimateForModel_matBaseFee, h] at hx
          have hpos := baseFee_pos x.material
          linarith
    · refine ⟨m, hm, ?_⟩
      rw [← estimateForModel_matBaseFee]
      exact hEq
  · have hsub : recalcGrandSubtotal [mPLA1000, mABS1000] =
        some (0 + (966519 / 125000 + 235 / 729) + (1336911 / 125000 + 235 / 729)) := by
      simp [recalcGrandSubtotal, estimateForModel, mPLA1000, mABS1000, optAdd,
        gramsPerPartDef, timeMinPerPartDef, QUALITY_SPEED, INFILL_TIME_MULT,
        SUPPORT_TIME_MULT, clamp, MATERIALS, SHELL_BASE, INFILL_PORTION,
        CALIBRATION_MULT, WASTE_GRAMS_PER_PART, SUPPORT_MASS_MULT,
        PRINT_RATE_PER_HOUR]
      norm_num
    have hmax : recalcMaxBaseFee [mPLA1000, mABS1000] = 180 := by
      simp [recalcMaxBaseFee, estimateForModel, mPLA1000, mABS1000, MATERIALS]
      norm_num
    unfold recalcSmallOrderFee
    rw [hsub, hmax]
    simp [smallOrderFeeFormula, SMALL_FEE_THRESHOLD]
    norm_num

/-- Witness for C4: both general conjuncts applied to the concrete
two-material batch of the scenario. -/
theorem batch_fee_basis_is_max_baseFee_witness :
    (MATERIALS mPLA1000.material).baseFee ≤ recalcMaxBaseFee [mPLA1000, mABS1000] ∧
    ∃ m ∈ [mPLA1000, mABS1000],
      recalcMaxBaseFee [mPLA1000, mABS1000] = (MATERIALS m.material).baseFee :=
  ⟨batch_fee_basis_is_max_baseFee.1 [mPLA1000, mABS1000] mPLA1000
      (List.mem_cons_self mPLA1000 [mABS1000]),
   batch_fee_basis_is_max_baseFee.2.1 [mPLA1000, mABS1000] (by simp)⟩

/-! ### C5 — prep overhead is added exactly once per batch -/

/-- Summing numeric per-item minutes through the `optAdd` fold yields the
plain sum shifted by the start value. -/
lemma foldl_optAdd_minutes (g : Model → ℚ) :
    ∀ (ms : List Model) (a : ℚ),
      (∀ m ∈ ms, (estimateForModel m).minutesTotal = some (g m)) →
      ms.foldl (fun acc m => optAdd acc (estimateForModel m).minutesTotal) (some a) =
        some (a + (ms.map g).sum)
  | [], a, _ => by simp
  | m :: ms, a, h => by
      have hm := h m (List.mem_cons_self m ms)
      have ih := foldl_optAdd_minutes g ms (a + g m)
        (fun x hx => h x (List.mem_cons_of_mem m hx))
      have hopt : optAdd (some a) (some (g m)) = some (a + g m) := rfl
      simp only [List.foldl_cons, hm, hopt]
      rw [ih, List.map_cons, List.sum_cons, add_assoc]

/-- C5: for every non-empty batch whose items have numeric per-part minutes
`g m`, the grand total of minutes is the sum of `g m · qty` over the items
plus `PREP_TIME_PER_JOB_MIN = 6 + 14/60` added exactly once — the
`PREP_IS_PER_PART` toggle is `false`, so the overhead does not scale with
files, parts or quantities. -/
theorem grand_minutes_prep_once (ms : List Model) (g : Model → ℚ)
    (_hne : ms ≠ [])
    (h : ∀ m ∈ ms,
        timeMinPerPartDef m.volume_mm3 m.quality m.infill m.supports = some (g m)) :
    recalcGrandMinutes ms =
      some ((ms.map (fun m => g m * (m.qty : ℚ))).sum + PREP_TIME_PER_JOB_MIN) := by
  have h2 : ∀ m ∈ ms, (estimateForModel m).minutesTotal = some (g m * (m.qty : ℚ)) := by
    intro m hm
    have hMT : (estimateForModel m).minutesTotal =
        (timeMinPerPartDef m.volume_mm3 m.quality m.infill m.supports).map
          (fun t => t * (m.qty : ℚ)) := rfl
    rw [hMT, h m hm]
    rfl
  have hfold := foldl_optAdd_minutes (fun m => g m * (m.qty : ℚ)) ms 0 h2
  unfold recalcGrandMinutes
  rw [hfold]
  simp only [PREP_IS_PER_PART, if_false, optAdd, Bool.false_eq_true, ite_false]
  rw [zero_add, mul_one]

/-- Witness for C5: one PLA item at standard quality (per-part minutes
470/243) gives `470/243 + 6 + 14/60` total minutes. -/
theorem grand_minutes_prep_once_witness :
    recalcGrandMinutes [mPLA1000] =
      some (([mPLA1000].map (fun m => 470 / 243 * (m.qty : ℚ))).sum +
        PREP_TIME_PER_JOB_MIN) :=
  grand_minutes_prep_once [mPLA1000] (fun _ => 470 / 243) (by simp)
    (by
      intro m hm
      have hmEq : m = mPLA1000 := by simpa using hm
      subst hmEq
      simp [mPLA1000, timeMinPerPartDef, QUALITY_SPEED, INFILL_TIME_MULT,
        SUPPORT_TIME_MULT, clamp]
      norm_num)

/-! ### C6 — volume is invariant under winding reversal and non-negative -/

/-- Reversing each triangle's winding negates the accumulated signed sum:
swapping the second and third vertex negates each scalar triple product. -/
lemma sumTerms_reverseWinding :
    ∀ l : List ℚ, sumTerms (reverseWinding l) = -sumTerms l
  | a1 :: a2 :: a3 :: b1 :: b2 :: b3 :: c1 :: c2 :: c3 :: rest => by
      have ih := sumTerms_reverseWinding rest
      simp only [reverseWinding, sumTerms, ih, triTerm]
      ring
  | [] => by simp [reverseWinding, sumTerms]
  | [a1] => by simp [reverseWinding, sumTerms]
  | [a1, a2] => by simp [reverseWinding, sumTerms]
  | [a1, a2, a3] => by simp [reverseWinding, sumTerms]
  | [a1, a2, a3, a4] => by simp [reverseWinding, sumTerms]
  | [a1, a2, a3, a4, a5] => by simp [reverseWinding, sumTerms]
  | [a1, a2, a3, a4, a5, a6] => by simp [reverseWinding, sumTerms]
  | [a1, a2, a3, a4, a5, a6, a7] => by simp [reverseWinding, sumTerms]
  | [a1, a2, a3, a4, a5, a6, a7, a8] => by simp [reverseWinding, sumTerms]

/-- C6: for every flat vertex array whose length is a multiple of 9,
exchanging the second and third vertex of every triangle leaves
`computeVolume` unchanged, and the result is always non-negative (the
absolute value normalizes the orientation sign). -/
theorem computeVolume_winding_invariant (l : List ℚ) (_h : l.length % 9 = 0) :
    computeVolume (reverseWinding l) = computeVolume l ∧ 0 ≤ computeVolume l := by
  constructor
  · unfold computeVolume
    rw [sumTerms_reverseWinding, abs_neg]
  · unfold computeVolume
    positivity

/-- Witness for C6 on a concrete single triangle. -/
theorem computeVolume_winding_invariant_witness :
    computeVolume (reverseWinding [1, 0, 0, 0, 1, 0, 0, 0, 1]) =
      computeVolume [1, 0, 0, 0, 1, 0, 0, 0, 1] ∧
    0 ≤ computeVolume [1, 0, 0, 0, 1, 0, 0, 0, 1] :=
  computeVolume_winding_invariant [1, 0, 0, 0, 1, 0, 0, 0, 1] (by simp)

end PrintCalc
